import Mathlib

/-!
gearmand: the libevent front end of the Gearman server (`libgearman/gearmand.c`).

A shallow embedding of `gearmand.c`: `gearmand_init`, `gearmand_destroy`,
`_listen_init`, `_listen_accept`, `_con_watch`, `_con_ready` and `_con_close`
(`gearmand_run`, which only enters the event loop of libevent, is left out).

The process state is an explicit `World`.  Pointers to connection records
(`gearmand_con_st *`) are addresses (`Nat`) into `World.heap`; session handles
(`gearman_con_st *`, `gearman_server_con_st *`) are identifiers (`Nat`) into
`World.cons`.  Every call the C code makes to libevent, libc or the session
engine is appended to `World.trace`, every `printf` to `World.out`.
Dereferencing or freeing a pointer that is not allocated, or passing the
engine a handle it does not know, is undefined behaviour in C and is `none`
here.

The headers (`common.h`, `<event.h>`, `<poll.h>`) and the session engine are
not part of the file; what is taken from them is marked at each definition.
-/

set_option autoImplicit false

namespace Gearmand

/-! ## Constants and types from the headers -/

/-- Status codes.  The enumeration is declared in a header; `gearmand.c` names
    four of its members, every other member is `GEARMAN_OTHER`. -/
inductive gearman_return_t where
  | GEARMAN_SUCCESS
  | GEARMAN_IO_WAIT
  | GEARMAN_ERRNO
  | GEARMAN_EVENT
  | GEARMAN_OTHER (code : Nat)
  deriving DecidableEq, Repr

open gearman_return_t

/-- Value of `POLLIN` in `<poll.h>`. -/
def POLLIN : Nat := 0x001
/-- Value of `POLLOUT` in `<poll.h>`. -/
def POLLOUT : Nat := 0x004
/-- Value of `EV_READ` in `<event.h>`. -/
def EV_READ : Nat := 0x02
/-- Value of `EV_WRITE` in `<event.h>`. -/
def EV_WRITE : Nat := 0x04
/-- Value of `EV_PERSIST` in `<event.h>`. -/
def EV_PERSIST : Nat := 0x10

/-- The callback a registration dispatches to. -/
inductive Callback where
  | listen_accept
  | con_ready
  deriving DecidableEq, Repr

/-- The fields of `struct event` that `event_set` fills in:
    `event_set(ev, fd, events, callback, arg)`. -/
structure event where
  ev_fd : Int
  ev_events : Nat
  ev_callback : Callback
  ev_arg : Nat
  deriving DecidableEq, Repr

/-- The connection record `gearmand_con_st`, by the fields `gearmand.c` uses.
    `malloc` does not initialise it, so each field is unset (`none`) until the
    code or the engine writes it.  `server_con` is the embedded
    `gearman_server_con_st`, whose address is passed to
    `gearman_server_add_con`; `con` is the pointer `_con_watch` stores.  The
    back-pointer `gearmand` has no field: a `World` holds one server instance. -/
structure gearmand_con_st where
  fd : Option Int
  sa : Option (Nat × Nat)
  server_con : Option Nat
  con : Option Nat
  event : Option event
  deriving DecidableEq, Repr

/-- Engine-side state of one session handle, by the two fields `gearmand.c`
    reaches through accessors: the attached context (`gearman_con_data`,
    `gearman_server_con_data`) and the ready flags (`gearman_con_set_revents`). -/
structure gearman_con_st where
  data : Nat
  revents : Nat
  deriving DecidableEq, Repr

/-- Lines written with `printf`. -/
inductive Line where
  | event_init_null
  | server_create_null
  | signal_errno
  | socket_errno
  | setsockopt_errno
  | bind_errno
  | listen_errno
  | event_add_failed
  | malloc_errno
  | accept_errno
  | connect (sa : Nat × Nat)
  | add_con_error
  | server_run_error
  | disconnect (sa : Nat × Nat)
  | con_close_error
  deriving DecidableEq, Repr

/-- Calls into libevent, libc and the session engine, with the outcome the
    callee reported where the code tests it. -/
inductive Call where
  | malloc_gearmand (ok : Bool)
  | event_init (ok : Bool)
  | gearman_server_create (ok : Bool)
  | gearman_server_set_event_cb
  | gearman_server_free
  | event_base_free
  | free_gearmand
  | signal (ok : Bool)
  | socket (fd : Int)
  | setsockopt (fd : Int) (ok : Bool)
  | bind (fd : Int) (port : Nat) (ok : Bool)
  | listen (fd : Int) (backlog : Int) (ok : Bool)
  | event_set (fd : Int) (events : Nat) (cb : Callback) (arg : Nat)
  | event_base_set
  | event_add (fd : Int) (ok : Bool)
  | event_del (fd : Int) (ok : Bool)
  | malloc (p : Option Nat)
  | accept (lfd : Int) (fd : Int)
  | close (fd : Int)
  | free (p : Nat)
  | gearman_server_add_con (fd : Int) (data : Nat) (h : Option Nat)
  | gearman_con_set_revents (con : Nat) (revents : Nat)
  | gearman_server_run (h : Option Nat) (ret : gearman_return_t)
  | gearman_server_con_free (h : Nat)
  | gearman_con_free (con : Nat)
  | exit (code : Nat)
  deriving DecidableEq, Repr

/-- Whether a call reported failure to the code. -/
def Call.failed : Call → Bool
  | .malloc_gearmand ok => !ok
  | .event_init ok => !ok
  | .gearman_server_create ok => !ok
  | .signal ok => !ok
  | .socket fd => fd == -1
  | .setsockopt _ ok => !ok
  | .bind _ _ ok => !ok
  | .listen _ _ ok => !ok
  | .event_add _ ok => !ok
  | .event_del _ ok => !ok
  | .malloc p => p.isNone
  | .accept _ fd => fd == -1
  | .gearman_server_add_con _ _ h => h.isNone
  | _ => false

/-- The server instance `gearmand_st`: the event base, the engine and the
    listening event.  `base` and `server` record whether each is still live. -/
structure gearmand_st where
  base : Bool
  server : Bool
  listen_event : Option event
  deriving DecidableEq, Repr

/-- Process state. -/
structure World where
  /-- the allocated `gearmand_st`, if any -/
  gearmand : Option gearmand_st
  /-- allocated connection records, by address -/
  heap : List (Nat × gearmand_con_st)
  /-- registrations held by the event base -/
  reactor : List event
  /-- descriptors on which `event_add` reports -1 -/
  add_fails : List Int
  /-- descriptors on which `event_del` reports -1 -/
  del_fails : List Int
  /-- live session handles of the engine -/
  cons : List (Nat × gearman_con_st)
  /-- standard output -/
  out : List Line
  /-- calls made so far, oldest first -/
  trace : List Call
  /-- exit status once `exit` has been called -/
  exited : Option Nat
  deriving DecidableEq, Repr

/-! ## Small state operations -/

/-- Append one call to the trace. -/
def World.call (w : World) (c : Call) : World :=
  { w with trace := w.trace ++ [c] }

/-- Print one line: `printf`. -/
def World.printf (w : World) (l : Line) : World :=
  { w with out := w.out ++ [l] }

/-- Terminate the process: `exit(code)`. -/
def World.exit (w : World) (code : Nat) : World :=
  { (w.call (.exit code)) with exited := some code }

/-- Overwrite the record at address `p`. -/
def World.store (w : World) (p : Nat) (r : gearmand_con_st) : World :=
  { w with heap := w.heap.map (fun e => if e.1 = p then (p, r) else e) }

/-- Release a connection record: `free(dcon)`.  Freeing an address that is not
    allocated, such as a second `free` of one record, is undefined behaviour. -/
def World.free (w : World) (p : Nat) : Option World :=
  match w.heap.lookup p with
  | none => none
  | some _ => some { (w.call (.free p)) with heap := w.heap.filter (fun e => e.1 ≠ p) }

/-- Registrations the event base holds for descriptor `fd`. -/
def World.registered (w : World) (fd : Int) : List event :=
  w.reactor.filter (fun e => e.ev_fd = fd)

/-! ## The reactor (libevent) -/

/-- Modelled from the spec: the registration state of the Reactor (libevent's
    `event_add`, which is outside `gearmand.c`): "held inside the Reactor, keyed
    by descriptor; maps a descriptor to its current interest set and its
    readiness-callback target ... re-registering replaces, never duplicates".
    A registration stays in the table until `event_del` removes it.  Whether
    the call fails is a function of the descriptor (`add_fails`); a failed call
    leaves the table as it was.  Returns 0 or -1. -/
def event_add (w : World) (ev : event) : World × Int :=
  if ev.ev_fd ∈ w.add_fails then
    (w.call (.event_add ev.ev_fd false), -1)
  else
    ({ (w.call (.event_add ev.ev_fd true)) with
        reactor := ev :: w.reactor.filter (fun e => e.ev_fd ≠ ev.ev_fd) }, 0)

/-- Modelled from the spec: unregistration of a descriptor (libevent's
    `event_del`, outside `gearmand.c`): removes the descriptor's registration.
    Whether the call fails is a function of the descriptor (`del_fails`); a
    failed call leaves the table as it was.  Returns 0 or -1. -/
def event_del (w : World) (ev : event) : World × Int :=
  if ev.ev_fd ∈ w.del_fails then
    (w.call (.event_del ev.ev_fd false), -1)
  else
    ({ (w.call (.event_del ev.ev_fd true)) with
        reactor := w.reactor.filter (fun e => e.ev_fd ≠ ev.ev_fd) }, 0)

/-! ## Engine accessors -/

/-- Modelled from the spec: the engine's accessor `gearman_con_data(con)` (not
    in `gearmand.c`): the "opaque native context" attached to a handle. -/
def gearman_con_data (w : World) (con : Nat) : Option Nat :=
  (w.cons.lookup con).map (fun c => c.data)

/-- Modelled from the spec: the engine's accessor
    `gearman_server_con_data(server_con)` (not in `gearmand.c`): the "opaque
    native context" attached to a handle. -/
def gearman_server_con_data (w : World) (server_con : Nat) : Option Nat :=
  (w.cons.lookup server_con).map (fun c => c.data)

/-- Modelled from the spec: the engine's `gearman_con_set_revents(con, revents)`
    (not in `gearmand.c`), which hands the ready flags of a handle to the engine. -/
def gearman_con_set_revents (w : World) (con : Nat) (revents : Nat) : Option World :=
  match w.cons.lookup con with
  | none => none
  | some _ =>
    some { (w.call (.gearman_con_set_revents con revents)) with
            cons := w.cons.map (fun e => if e.1 = con then (e.1, { e.2 with revents := revents }) else e) }

/-- Modelled from the spec: the engine's connection-free operation
    `gearman_con_free` (not in `gearmand.c`): "releases engine-side state for a
    handle".  Called from inside the close callback, it does not call back. -/
def gearman_con_free (w : World) (con : Nat) : World :=
  { (w.call (.gearman_con_free con)) with cons := w.cons.filter (fun e => e.1 ≠ con) }

/-! ## The two callbacks given to the engine -/

/-- The local `set_events` of `_con_watch` once lines 220-228 have run: the
    translation of the engine's poll flags into libevent flags. -/
def set_events (events : Nat) : Nat :=
  let set_events : Nat := 0
  let set_events := if events &&& POLLIN ≠ 0 then set_events ||| EV_READ else set_events
  let set_events := if events &&& POLLOUT ≠ 0 then set_events ||| EV_WRITE else set_events
  set_events

/-- `_con_watch` (lines 216-237). -/
def _con_watch (w : World) (con : Nat) (events : Nat) : Option (World × gearman_return_t) := do
  let p ← gearman_con_data w con
  let dcon ← w.heap.lookup p
  let fd ← dcon.fd
  let ev : event :=
    { ev_fd := fd, ev_events := set_events events, ev_callback := .con_ready, ev_arg := p }
  let w := w.store p { dcon with con := some con, event := some ev }
  let w := w.call (.event_set fd (set_events events) .con_ready p)
  let w := w.call .event_base_set
  let (w, rc) := event_add w ev
  if rc = -1 then
    some (w, GEARMAN_EVENT)
  else
    some (w, GEARMAN_SUCCESS)

/-- `_con_close` (lines 272-287). -/
def _con_close (w : World) (con : Nat) (ret : gearman_return_t) : Option (World × gearman_return_t) := do
  let p ← gearman_con_data w con
  let dcon ← w.heap.lookup p
  let w := if ret ≠ GEARMAN_SUCCESS then w.printf .con_close_error else w
  let ev ← dcon.event
  let (w, rc) := event_del w ev
  if rc = -1 then
    some (w, GEARMAN_EVENT)
  else
    let w := gearman_con_free w con
    let w ← w.free p
    some (w, GEARMAN_SUCCESS)

/-! ## The engine calling back -/

/-- A call the engine makes into `gearmand.c` through the two callbacks
    installed with `gearman_server_set_event_cb`. -/
inductive Upcall where
  | watch (con : Nat) (events : Nat)
  | close (con : Nat) (ret : gearman_return_t)
  deriving DecidableEq, Repr

/-- Run the callbacks the engine makes during one of its operations, in order.
    The engine is free to ignore the status a callback returns. -/
def run_upcalls : World → List Upcall → Option World
  | w, [] => some w
  | w, .watch con events :: rest =>
    match _con_watch w con events with
    | none => none
    | some (w1, _) => run_upcalls w1 rest
  | w, .close con ret :: rest =>
    match _con_close w con ret with
    | none => none
    | some (w1, _) => run_upcalls w1 rest

/-- What the engine does in one `gearman_server_run` call: the callbacks it
    makes while driving, the handle it returns (`none` is NULL) and the status
    it stores through the `ret` pointer. -/
structure Drive where
  upcalls : List Upcall
  server_con : Option Nat
  ret : gearman_return_t
  deriving DecidableEq, Repr

/-- Modelled from the spec: the engine's drive operation `gearman_server_run`
    (not in `gearmand.c`): "performs one unit of protocol work", returning a
    handle and an outcome; what it does in between is the parameter `d`. -/
def gearman_server_run (w : World) (d : Drive) : Option World :=
  match run_upcalls w d.upcalls with
  | none => none
  | some w1 => some (w1.call (.gearman_server_run d.server_con d.ret))

/-- Modelled from the spec: the engine's connection-free operation
    `gearman_server_con_free` (not in `gearmand.c`): "releases engine-side state
    for a handle".  Whether it invokes the close callback on the way is the
    parameter `cb`: `some r` when it calls `_con_close` with reason `r`,
    `none` when it does not. -/
def gearman_server_con_free (w : World) (server_con : Nat) (cb : Option gearman_return_t) :
    Option World :=
  let w := w.call (.gearman_server_con_free server_con)
  let closed : Option World :=
    match cb with
    | none => some w
    | some r => (_con_close w server_con r).map (fun x => x.1)
  closed.map (fun w1 => { w1 with cons := w1.cons.filter (fun e => e.1 ≠ server_con) })

/-! ## The readiness callback -/

/-- The local `revents` of `_con_ready` once lines 244-250 have run: the
    translation of libevent's ready flags into poll flags. -/
def revents (events : Nat) : Nat :=
  let revents : Nat := 0
  let revents := if events &&& EV_READ ≠ 0 then revents ||| POLLIN else revents
  let revents := if events &&& EV_WRITE ≠ 0 then revents ||| POLLOUT else revents
  revents

/-- The first half of `_con_ready` (lines 242-254): hand the ready flags to the
    engine and make the drive call.  The result is the state in which
    `gearman_server_run` returns. -/
def _con_ready_drive (w : World) (events : Nat) (arg : Nat) (d : Drive) : Option World := do
  let dcon ← w.heap.lookup arg
  let con ← dcon.con
  let w ← gearman_con_set_revents w con (revents events)
  gearman_server_run w d

/-- `_con_ready` (lines 239-270).  `arg` is the record the event was set with,
    `d` what the engine does in the drive call and `cb` how the engine's
    `gearman_server_con_free` behaves. -/
def _con_ready (w : World) (events : Nat) (arg : Nat) (d : Drive)
    (cb : Option gearman_return_t) : Option World := do
  let w ← _con_ready_drive w events arg d
  if d.ret ≠ GEARMAN_SUCCESS ∧ d.ret ≠ GEARMAN_IO_WAIT then
    let w := w.printf .server_run_error
    match d.server_con with
    | none => some (w.exit 1)
    | some server_con =>
      let p ← gearman_server_con_data w server_con
      let dcon ← w.heap.lookup p
      let sa ← dcon.sa
      let w := w.printf (.disconnect sa)
      let w ← gearman_server_con_free w server_con cb
      w.free p
  else
    some w

/-! ## The listener -/

/-- What the environment answers during one accept-readiness event: the
    address `malloc` returns (`none` is NULL), the descriptor and peer address
    `accept` returns (-1 on failure), the handle `gearman_server_add_con`
    returns (`none` is NULL) and the callbacks the engine makes inside it. -/
structure Accept where
  malloc : Option Nat
  fd : Int
  sa : Nat × Nat
  add_con : Option Nat
  upcalls : List Upcall
  deriving DecidableEq, Repr

/-- A record as `malloc` returns it. -/
def gearmand_con_st.blank : gearmand_con_st :=
  { fd := none, sa := none, server_con := none, con := none, event := none }

/-- Modelled from the spec: the engine's `gearman_server_add_con` (not in
    `gearmand.c`): "registers a new connection with the engine", building the
    session in the slot `&(dcon->server_con)` of the record at `p` and
    attaching `p` as its context.  The handle it returns and the callbacks it
    makes on the way are the parameter `a`. -/
def gearman_server_add_con (w : World) (fd : Int) (p : Nat) (a : Accept) :
    Option (World × Option Nat) :=
  let w := w.call (.gearman_server_add_con fd p a.add_con)
  match a.add_con with
  | none => some (w, none)
  | some h =>
    match w.heap.lookup p with
    | none => none
    | some dcon =>
      let w := w.store p { dcon with server_con := some h }
      let w := { w with cons := (h, { data := p, revents := 0 }) :: w.cons }
      (run_upcalls w a.upcalls).map (fun w1 => (w1, some h))

/-- `_listen_accept` (lines 177-214). -/
def _listen_accept (w : World) (fd : Int) (a : Accept) : Option World :=
  let w := w.call (.malloc a.malloc)
  match a.malloc with
  | none => some ((w.printf .malloc_errno).exit 1)
  | some p =>
    let w := { w with heap := (p, gearmand_con_st.blank) :: w.heap }
    let w := w.call (.accept fd a.fd)
    let dcon : gearmand_con_st :=
      { gearmand_con_st.blank with fd := some a.fd, sa := if a.fd = -1 then none else some a.sa }
    let w := w.store p dcon
    if a.fd = -1 then
      match w.free p with
      | none => none
      | some w =>
        let w := w.printf .accept_errno
        some (w.exit 1)
    else
      let w := w.printf (.connect a.sa)
      match gearman_server_add_con w a.fd p a with
      | none => none
      | some (w, none) =>
        let w := w.call (.close a.fd)
        match w.free p with
        | none => none
        | some w =>
          let w := w.printf .add_con_error
          some (w.exit 1)
      | some (w, some _) => some w

/-- What the environment answers to the calls of server initialisation. -/
structure Sys where
  malloc_ok : Bool
  event_init_ok : Bool
  server_create_ok : Bool
  signal_ok : Bool
  socket : Int
  setsockopt_ok : Bool
  bind_ok : Bool
  listen_ok : Bool
  deriving DecidableEq, Repr

/-- `_listen_init` (lines 121-175).  The `event` argument is the
    `listen_event` of the server instance. -/
def _listen_init (w : World) (port : Nat) (backlog : Int) (sys : Sys) :
    World × gearman_return_t :=
  let w := w.call (.signal sys.signal_ok)
  if !sys.signal_ok then
    (w.printf .signal_errno, GEARMAN_ERRNO)
  else
    let fd := sys.socket
    let w := w.call (.socket fd)
    if fd = -1 then
      (w.printf .socket_errno, GEARMAN_ERRNO)
    else
      let w := w.call (.setsockopt fd sys.setsockopt_ok)
      if !sys.setsockopt_ok then
        (w.printf .setsockopt_errno, GEARMAN_ERRNO)
      else
        let w := w.call (.bind fd port sys.bind_ok)
        if !sys.bind_ok then
          (w.printf .bind_errno, GEARMAN_ERRNO)
        else
          let w := w.call (.listen fd backlog sys.listen_ok)
          if !sys.listen_ok then
            (w.printf .listen_errno, GEARMAN_ERRNO)
          else
            let ev : event :=
              { ev_fd := fd, ev_events := EV_READ ||| EV_PERSIST,
                ev_callback := .listen_accept, ev_arg := 0 }
            let w := { w with gearmand := w.gearmand.map (fun (g : gearmand_st) => { g with listen_event := some ev }) }
            let w := w.call (.event_set fd (EV_READ ||| EV_PERSIST) .listen_accept 0)
            let w := w.call .event_base_set
            let (w, rc) := event_add w ev
            if rc = -1 then
              (w.printf .event_add_failed, GEARMAN_ERRNO)
            else
              (w, GEARMAN_SUCCESS)

/-! ## The server instance -/

/-- Modelled from the spec: release of the Session Engine, `gearman_server_free`
    (not in `gearmand.c`). -/
def gearman_server_free (w : World) : World :=
  { (w.call .gearman_server_free) with
    gearmand := w.gearmand.map (fun (g : gearmand_st) => { g with server := false }), cons := [] }

/-- Modelled from the spec: release of the Reactor, libevent's `event_base_free`:
    "releases all Reactor-internal registration state". -/
def event_base_free (w : World) : World :=
  { (w.call .event_base_free) with
    gearmand := w.gearmand.map (fun (g : gearmand_st) => { g with base := false }), reactor := [] }

/-- `gearmand_destroy` (lines 95-104). -/
def gearmand_destroy (w : World) : World :=
  let w := gearman_server_free w
  let w := event_base_free w
  { (w.call .free_gearmand) with gearmand := none }

/-- `gearmand_init` (lines 50-93).  The result is the instance returned to the
    caller, `none` for NULL. -/
def gearmand_init (w : World) (port : Nat) (backlog : Int) (sys : Sys) :
    World × Option gearmand_st :=
  let w := w.call (.malloc_gearmand sys.malloc_ok)
  if !sys.malloc_ok then
    (w, none)
  else
    let w := { w with gearmand := some { base := false, server := false, listen_event := none } }
    let w := w.call (.event_init sys.event_init_ok)
    if !sys.event_init_ok then
      let w := { (w.call .free_gearmand) with gearmand := none }
      (w.printf .event_init_null, none)
    else
      let w := { w with gearmand := w.gearmand.map (fun (g : gearmand_st) => { g with base := true }) }
      let w := w.call (.gearman_server_create sys.server_create_ok)
      if !sys.server_create_ok then
        let w := { (w.call .free_gearmand) with gearmand := none }
        (w.printf .server_create_null, none)
      else
        let w := { w with gearmand := w.gearmand.map (fun (g : gearmand_st) => { g with server := true }) }
        let w := w.call .gearman_server_set_event_cb
        let r := _listen_init w port backlog sys
        if r.2 ≠ GEARMAN_SUCCESS then
          (gearmand_destroy r.1, none)
        else
          (r.1, r.1.gearmand)

/-! ## Evaluation on a small world -/

/-- A running server with one connection: record 1 on descriptor 5, session
    handle 1, registered for read interest; the listener is on descriptor 3. -/
def w0 : World :=
  { gearmand := some { base := true, server := true,
                       listen_event := some ⟨3, 18, .listen_accept, 0⟩ },
    heap := [(1, { fd := some 5, sa := some (16777343, 40000), server_con := some 1,
                   con := some 1, event := some ⟨5, 2, .con_ready, 1⟩ })],
    reactor := [⟨5, 2, .con_ready, 1⟩, ⟨3, 18, .listen_accept, 0⟩],
    add_fails := [], del_fails := [],
    cons := [(1, { data := 1, revents := 0 })],
    out := [], trace := [], exited := none }

/-! ## Association lists -/

theorem lookup_map_put {β : Type} (l : List (Nat × β)) (k k' : Nat) (v : β) :
    (l.map (fun e => if e.1 = k then (k, v) else e)).lookup k' =
      if k' = k then (l.lookup k).map (fun _ => v) else l.lookup k' := by
  induction l with
  | nil => simp
  | cons a l ih =>
    obtain ⟨a1, a2⟩ := a
    rw [List.map_cons]
    by_cases h1 : a1 = k
    · rw [if_pos h1]
      simp only [List.lookup_cons, ih]
      by_cases h2 : k' = k
      · subst h1; subst h2; simp
      · subst h1
        have : (k' == a1) = false := by simpa using h2
        simp [this, h2]
    · rw [if_neg h1]
      simp only [List.lookup_cons, ih]
      by_cases h2 : k' = a1
      · subst h2
        simp [h1]
      · have : (k' == a1) = false := by simpa using h2
        by_cases h3 : k' = k
        · subst h3
          have h4 : (k' == a1) = false := this
          simp [h4]
        · simp [this, h3]

theorem lookup_filter_ne {β : Type} (l : List (Nat × β)) (k k' : Nat) :
    (l.filter (fun e => e.1 ≠ k)).lookup k' = if k' = k then none else l.lookup k' := by
  induction l with
  | nil => simp
  | cons a l ih =>
    obtain ⟨a1, a2⟩ := a
    by_cases h1 : a1 = k
    · have : List.filter (fun e : Nat × β => decide (e.1 ≠ k)) ((a1, a2) :: l) = List.filter (fun e => decide (e.1 ≠ k)) l := by
        simp [List.filter_cons, h1]
      rw [this, ih]
      simp only [List.lookup_cons]
      by_cases h2 : k' = k
      · simp [h2]
      · have : (k' == a1) = false := by simpa [h1] using h2
        simp [h2, this]
    · have : List.filter (fun e : Nat × β => decide (e.1 ≠ k)) ((a1, a2) :: l) = (a1, a2) :: List.filter (fun e => decide (e.1 ≠ k)) l := by
        simp [List.filter_cons, h1]
      rw [this]
      simp only [List.lookup_cons, ih]
      by_cases h2 : k' = a1
      · subst h2; simp [h1]
      · have : (k' == a1) = false := by simpa using h2
        simp [this]

theorem lookup_map_update {β : Type} (l : List (Nat × β)) (k k' : Nat) (f : β → β) :
    (l.map (fun e => if e.1 = k then (e.1, f e.2) else e)).lookup k' =
      if k' = k then (l.lookup k).map f else l.lookup k' := by
  induction l with
  | nil => simp
  | cons a l ih =>
    obtain ⟨a1, a2⟩ := a
    rw [List.map_cons]
    by_cases h1 : a1 = k
    · rw [if_pos h1]
      simp only [List.lookup_cons, ih]
      by_cases h2 : k' = k
      · subst h1; subst h2; simp
      · subst h1
        have : (k' == a1) = false := by simpa using h2
        simp [this, h2]
    · rw [if_neg h1]
      simp only [List.lookup_cons, ih]
      by_cases h2 : k' = a1
      · subst h2
        simp [h1]
      · have : (k' == a1) = false := by simpa using h2
        by_cases h3 : k' = k
        · subst h3
          have h4 : (k' == a1) = false := this
          simp [h4]
        · simp [this, h3]

/-! ## Flag arithmetic -/

theorem and_low (e k : Nat) (hk : 7 &&& k = k) : e &&& k = (e % 8) &&& k := by
  have h7 : e &&& 7 = e % 8 := Nat.and_pow_two_sub_one_eq_mod e 3
  rw [← h7, Nat.and_assoc, hk]

theorem set_events_cases (e : Nat) :
    set_events e =
      (if e &&& POLLIN ≠ 0 then EV_READ else 0) ||| (if e &&& POLLOUT ≠ 0 then EV_WRITE else 0) := by
  unfold set_events
  by_cases h1 : e &&& POLLIN = 0 <;> by_cases h2 : e &&& POLLOUT = 0 <;> simp [h1, h2]

theorem revents_cases (n : Nat) :
    revents n =
      (if n &&& EV_READ ≠ 0 then POLLIN else 0) ||| (if n &&& EV_WRITE ≠ 0 then POLLOUT else 0) := by
  unfold revents
  by_cases h1 : n &&& EV_READ = 0 <;> by_cases h2 : n &&& EV_WRITE = 0 <;> simp [h1, h2]

theorem set_events_bits (e : Nat) :
    (set_events e &&& EV_READ ≠ 0 ↔ e &&& POLLIN ≠ 0) ∧
    (set_events e &&& EV_WRITE ≠ 0 ↔ e &&& POLLOUT ≠ 0) ∧
    set_events e &&& (EV_READ ||| EV_WRITE) = set_events e := by
  rw [set_events_cases]
  by_cases h1 : e &&& POLLIN = 0 <;> by_cases h2 : e &&& POLLOUT = 0 <;>
    simp only [h1, h2, ne_eq, not_true_eq_false, not_false_eq_true, if_true, if_false] <;>
    decide

theorem revents_bits (n : Nat) :
    (revents n &&& POLLIN ≠ 0 ↔ n &&& EV_READ ≠ 0) ∧
    (revents n &&& POLLOUT ≠ 0 ↔ n &&& EV_WRITE ≠ 0) ∧
    revents n &&& (POLLIN ||| POLLOUT) = revents n := by
  rw [revents_cases]
  by_cases h1 : n &&& EV_READ = 0 <;> by_cases h2 : n &&& EV_WRITE = 0 <;>
    simp only [h1, h2, ne_eq, not_true_eq_false, not_false_eq_true, if_true, if_false] <;>
    decide

theorem revents_set_events (e : Nat) : revents (set_events e) = e &&& (POLLIN ||| POLLOUT) := by
  rw [revents_cases, set_events_cases]
  simp only [POLLIN, POLLOUT, EV_READ, EV_WRITE]
  rw [and_low e 1 (by decide), and_low e 4 (by decide), and_low e (1 ||| 4) (by decide)]
  have h : e % 8 < 8 := Nat.mod_lt _ (by decide)
  generalize e % 8 = m at h
  interval_cases m <;> decide

theorem set_events_revents (n : Nat) : set_events (revents n) = n &&& (EV_READ ||| EV_WRITE) := by
  rw [revents_cases, set_events_cases]
  simp only [POLLIN, POLLOUT, EV_READ, EV_WRITE]
  rw [and_low n 2 (by decide), and_low n 4 (by decide), and_low n (2 ||| 4) (by decide)]
  have h : n % 8 < 8 := Nat.mod_lt _ (by decide)
  generalize n % 8 = m at h
  interval_cases m <;> decide

/-! ## The watch callback -/

theorem con_watch_eval (w : World) (con e p : Nat) (dcon : gearmand_con_st) (fd : Int)
    (hp : gearman_con_data w con = some p) (hrec : w.heap.lookup p = some dcon)
    (hfd : dcon.fd = some fd) :
    ∃ w1, _con_watch w con e =
        some (w1, if fd ∈ w.add_fails then GEARMAN_EVENT else GEARMAN_SUCCESS) ∧
      w1.heap = w.heap.map (fun x => if x.1 = p then
        (p, { dcon with con := some con,
                        event := some ⟨fd, set_events e, .con_ready, p⟩ }) else x) ∧
      w1.reactor = (if fd ∈ w.add_fails then w.reactor
        else ⟨fd, set_events e, .con_ready, p⟩ :: w.reactor.filter (fun x => x.ev_fd ≠ fd)) ∧
      w1.trace = w.trace ++ [.event_set fd (set_events e) .con_ready p, .event_base_set,
        .event_add fd (decide (fd ∉ w.add_fails))] ∧
      w1.cons = w.cons ∧ w1.add_fails = w.add_fails ∧ w1.del_fails = w.del_fails ∧
      w1.out = w.out ∧ w1.exited = w.exited ∧ w1.gearmand = w.gearmand := by
  unfold _con_watch
  by_cases hadd : fd ∈ w.add_fails
  · simp [hp, hrec, hfd, event_add, hadd, World.call, World.store]
  · simp [hp, hrec, hfd, event_add, hadd, World.call, World.store]

/-- C5: two consecutive `_con_watch` calls with the same handle and flags
    return the same status, and the second leaves the registration table, the
    records and the handles as the first left them; when the status is
    `GEARMAN_SUCCESS` the descriptor has exactly one registration, carrying the
    translated interest set. -/
theorem con_watch_idempotent (w : World) (con e p : Nat) (dcon : gearmand_con_st) (fd : Int)
    (hp : gearman_con_data w con = some p) (hrec : w.heap.lookup p = some dcon)
    (hfd : dcon.fd = some fd) :
    ∃ w1 w2 r, _con_watch w con e = some (w1, r) ∧ _con_watch w1 con e = some (w2, r) ∧
      w2.reactor = w1.reactor ∧ w2.heap = w1.heap ∧ w2.cons = w1.cons ∧
      (r = GEARMAN_SUCCESS ↔ fd ∉ w.add_fails) ∧
      (r = GEARMAN_SUCCESS →
        w1.registered fd = [⟨fd, set_events e, .con_ready, p⟩] ∧
        w2.registered fd = [⟨fd, set_events e, .con_ready, p⟩]) := by
  obtain ⟨w1, h1, hheap1, hreac1, -, hcons1, hadd1, -, -, -, -⟩ :=
    con_watch_eval w con e p dcon fd hp hrec hfd
  have hp1 : gearman_con_data w1 con = some p := by
    simpa [gearman_con_data, hcons1] using hp
  have hrec1 : w1.heap.lookup p =
      some { dcon with con := some con, event := some ⟨fd, set_events e, .con_ready, p⟩ } := by
    rw [hheap1, lookup_map_put]; simp [hrec]
  obtain ⟨w2, h2, hheap2, hreac2, -, hcons2, -, -, -, -, -⟩ :=
    con_watch_eval w1 con e p _ fd hp1 hrec1 hfd
  rw [hadd1] at h2 hreac2
  refine ⟨w1, w2, _, h1, h2, ?_, ?_, hcons2, ?_, ?_⟩
  · rw [hreac2, hreac1]
    by_cases hadd : fd ∈ w.add_fails
    · simp [hadd]
    · simp [hadd, List.filter_cons, List.filter_filter]
  · rw [hheap2, hheap1, List.map_map]
    apply List.map_congr_left
    intro a _
    simp only [Function.comp_def]
    split <;> simp_all
  · by_cases hadd : fd ∈ w.add_fails <;> simp [hadd]
  · intro hr
    have hadd : fd ∉ w.add_fails := by
      by_cases hadd : fd ∈ w.add_fails
      · simp [hadd] at hr
      · exact hadd
    simp [World.registered, hreac2, hreac1, hadd, List.filter_cons, List.filter_filter]

/-- Witness for C5 on the world `w0`, declaring read and write interest. -/
theorem con_watch_idempotent_witness :
    gearman_con_data w0 1 = some 1 ∧
    ∃ w1 w2 r, _con_watch w0 1 5 = some (w1, r) ∧ _con_watch w1 1 5 = some (w2, r) ∧
      w2.reactor = w1.reactor ∧ w2.heap = w1.heap ∧ w2.cons = w1.cons ∧
      (r = GEARMAN_SUCCESS ↔ (5 : Int) ∉ w0.add_fails) ∧
      (r = GEARMAN_SUCCESS →
        w1.registered 5 = [⟨5, set_events 5, .con_ready, 1⟩] ∧
        w2.registered 5 = [⟨5, set_events 5, .con_ready, 1⟩]) :=
  ⟨rfl, con_watch_idempotent w0 1 5 1
     { fd := some 5, sa := some (16777343, 40000), server_con := some 1, con := some 1,
       event := some ⟨5, 2, .con_ready, 1⟩ } 5 rfl rfl rfl⟩

/-! ## The close callback -/

/-- C4: when `event_del` fails, `_con_close` returns `GEARMAN_EVENT` and the
    state is the one before the call but for the log line printed when the
    reason is not `GEARMAN_SUCCESS` (and the traced `event_del` call): the
    session handle and the connection record are not freed. -/
theorem con_close_event_del_failure (w : World) (con : Nat) (ret : gearman_return_t)
    (p : Nat) (dcon : gearmand_con_st) (ev : event)
    (hp : gearman_con_data w con = some p) (hrec : w.heap.lookup p = some dcon)
    (hev : dcon.event = some ev) (hfail : ev.ev_fd ∈ w.del_fails) :
    _con_close w con ret =
      some ({ w with
              out := if ret ≠ GEARMAN_SUCCESS then w.out ++ [.con_close_error] else w.out,
              trace := w.trace ++ [.event_del ev.ev_fd false] }, GEARMAN_EVENT) := by
  unfold _con_close
  by_cases hr : ret = GEARMAN_SUCCESS
  · simp [hp, hrec, hev, event_del, hfail, hr, World.call]
  · simp [hp, hrec, hev, event_del, hfail, hr, World.call, World.printf]

/-- Witness for C4 on the world `w0` with `event_del` failing on descriptor 5. -/
theorem con_close_event_del_failure_witness :
    (gearman_con_data { w0 with del_fails := [5] } 1 = some 1 ∧
      (5 : Int) ∈ ({ w0 with del_fails := [5] } : World).del_fails) ∧
    _con_close { w0 with del_fails := [5] } 1 GEARMAN_ERRNO =
      some ({ w0 with del_fails := [5], out := [.con_close_error],
                      trace := [.event_del 5 false] }, GEARMAN_EVENT) :=
  ⟨⟨rfl, by decide⟩,
   con_close_event_del_failure { w0 with del_fails := [5] } 1 GEARMAN_ERRNO 1
     { fd := some 5, sa := some (16777343, 40000), server_con := some 1, con := some 1,
       event := some ⟨5, 2, .con_ready, 1⟩ }
     ⟨5, 2, .con_ready, 1⟩ rfl rfl rfl (by decide)⟩

/-- C9: when `event_del` succeeds, `_con_close` makes exactly three calls, in
    this order: `event_del` on the record's event, `gearman_con_free` on the
    handle, `free` on the record; the registration, the handle and the record
    are gone afterwards, and the status is `GEARMAN_SUCCESS` for every reason
    passed in (the reason only decides whether a log line is printed). -/
theorem con_close_success_order (w : World) (con : Nat) (ret : gearman_return_t)
    (p : Nat) (dcon : gearmand_con_st) (ev : event)
    (hp : gearman_con_data w con = some p) (hrec : w.heap.lookup p = some dcon)
    (hev : dcon.event = some ev) (hok : ev.ev_fd ∉ w.del_fails) :
    ∃ w1, _con_close w con ret = some (w1, GEARMAN_SUCCESS) ∧
      w1.trace = w.trace ++ [.event_del ev.ev_fd true, .gearman_con_free con, .free p] ∧
      w1.reactor = w.reactor.filter (fun e => e.ev_fd ≠ ev.ev_fd) ∧
      w1.cons = w.cons.filter (fun e => e.1 ≠ con) ∧
      w1.heap = w.heap.filter (fun e => e.1 ≠ p) ∧
      w1.out = (if ret ≠ GEARMAN_SUCCESS then w.out ++ [.con_close_error] else w.out) ∧
      w1.exited = w.exited := by
  unfold _con_close
  by_cases hr : ret = GEARMAN_SUCCESS
  · simp [hp, hrec, hev, event_del, hok, hr, World.call, gearman_con_free, World.free]
  · simp [hp, hrec, hev, event_del, hok, hr, World.call, World.printf, gearman_con_free,
      World.free]

/-- Witness for C9 on the world `w0`. -/
theorem con_close_success_order_witness :
    (gearman_con_data w0 1 = some 1 ∧ (5 : Int) ∉ w0.del_fails) ∧
    ∃ w1, _con_close w0 1 (GEARMAN_OTHER 7) = some (w1, GEARMAN_SUCCESS) ∧
      w1.trace = w0.trace ++ [.event_del 5 true, .gearman_con_free 1, .free 1] ∧
      w1.reactor = w0.reactor.filter (fun e => e.ev_fd ≠ 5) ∧
      w1.cons = w0.cons.filter (fun e => e.1 ≠ 1) ∧
      w1.heap = w0.heap.filter (fun e => e.1 ≠ 1) ∧
      w1.out = (if GEARMAN_OTHER 7 ≠ GEARMAN_SUCCESS then w0.out ++ [.con_close_error]
                else w0.out) ∧
      w1.exited = w0.exited :=
  ⟨⟨rfl, by decide⟩,
   con_close_success_order w0 1 (GEARMAN_OTHER 7) 1
     { fd := some 5, sa := some (16777343, 40000), server_con := some 1, con := some 1,
       event := some ⟨5, 2, .con_ready, 1⟩ }
     ⟨5, 2, .con_ready, 1⟩ rfl rfl rfl (by decide)⟩

/-! ## The readiness callback -/

theorem con_ready_drive_eval (w : World) (events arg : Nat) (d : Drive)
    (dcon : gearmand_con_st) (con : Nat) (c : gearman_con_st)
    (harg : w.heap.lookup arg = some dcon) (hcon : dcon.con = some con)
    (hlive : w.cons.lookup con = some c) (hup : d.upcalls = []) :
    ∃ w1, _con_ready_drive w events arg d = some w1 ∧
      w1.heap = w.heap ∧ w1.reactor = w.reactor ∧
      w1.cons = w.cons.map (fun x => if x.1 = con then
        (x.1, { x.2 with revents := revents events }) else x) ∧
      w1.trace = w.trace ++ [.gearman_con_set_revents con (revents events),
        .gearman_server_run d.server_con d.ret] ∧
      w1.out = w.out ∧ w1.exited = w.exited ∧ w1.add_fails = w.add_fails ∧
      w1.del_fails = w.del_fails ∧ w1.gearmand = w.gearmand := by
  unfold _con_ready_drive
  simp [harg, hcon, gearman_con_set_revents, hlive, gearman_server_run, hup, run_upcalls,
    World.call]

/-- C10: the two flag translations.  `_con_watch` registers the descriptor
    with `set_events e`, which has `EV_READ` iff `e` has `POLLIN`, `EV_WRITE`
    iff `e` has `POLLOUT`, and no other bit; when the event then fires with
    native flags `n`, `_con_ready` hands the engine `revents n`, which has
    `POLLIN` iff `n` has `EV_READ`, `POLLOUT` iff `n` has `EV_WRITE`, and no
    other bit; each translation undoes the other on the read/write bits, so
    translating `e` and translating the result back gives
    `e &&& (POLLIN ||| POLLOUT)`. -/
theorem flag_translation (w : World) (con e n p : Nat) (r0 : Nat) (dcon : gearmand_con_st)
    (fd : Int) (hc : w.cons.lookup con = some ⟨p, r0⟩) (hrec : w.heap.lookup p = some dcon)
    (hfd : dcon.fd = some fd) (hadd : fd ∉ w.add_fails) :
    (∃ w1, _con_watch w con e = some (w1, GEARMAN_SUCCESS) ∧
      w1.registered fd = [⟨fd, set_events e, .con_ready, p⟩] ∧
      ∃ w2, _con_ready w1 n p ⟨[], none, GEARMAN_SUCCESS⟩ none = some w2 ∧
        w2.cons.lookup con = some ⟨p, revents n⟩) ∧
    ((set_events e &&& EV_READ ≠ 0 ↔ e &&& POLLIN ≠ 0) ∧
      (set_events e &&& EV_WRITE ≠ 0 ↔ e &&& POLLOUT ≠ 0) ∧
      set_events e &&& (EV_READ ||| EV_WRITE) = set_events e) ∧
    ((revents n &&& POLLIN ≠ 0 ↔ n &&& EV_READ ≠ 0) ∧
      (revents n &&& POLLOUT ≠ 0 ↔ n &&& EV_WRITE ≠ 0) ∧
      revents n &&& (POLLIN ||| POLLOUT) = revents n) ∧
    revents (set_events e) = e &&& (POLLIN ||| POLLOUT) ∧
    set_events (revents n) = n &&& (EV_READ ||| EV_WRITE) := by
  refine ⟨?_, set_events_bits e, revents_bits n, revents_set_events e, set_events_revents n⟩
  have hp : gearman_con_data w con = some p := by simp [gearman_con_data, hc]
  obtain ⟨w1, h1, hheap1, hreac1, -, hcons1, -, -, -, -, -⟩ :=
    con_watch_eval w con e p dcon fd hp hrec hfd
  rw [if_neg hadd] at h1 hreac1
  refine ⟨w1, h1, ?_, ?_⟩
  · simp [World.registered, hreac1, List.filter_cons, List.filter_filter]
  · have hrec1 : w1.heap.lookup p =
        some { dcon with con := some con, event := some ⟨fd, set_events e, .con_ready, p⟩ } := by
      rw [hheap1, lookup_map_put]; simp [hrec]
    have hc1 : w1.cons.lookup con = some ⟨p, r0⟩ := by rw [hcons1]; exact hc
    obtain ⟨w2, h2, -, -, hcons2, -, -, -, -, -, -⟩ :=
      con_ready_drive_eval w1 n p ⟨[], none, GEARMAN_SUCCESS⟩ _ con ⟨p, r0⟩ hrec1 rfl hc1 rfl
    refine ⟨w2, ?_, ?_⟩
    · unfold _con_ready
      simp [h2]
    · have hl := lookup_map_update w1.cons con con
        (fun c : gearman_con_st => { c with revents := revents n })
      rw [hcons2]
      simpa [hc1] using hl

/-- Witness for C10 on the world `w0`: interest `POLLIN | POLLOUT | 8`,
    readiness `EV_READ | EV_PERSIST`. -/
theorem flag_translation_witness :
    ((5 : Int) ∉ w0.add_fails) ∧
    ((∃ w1, _con_watch w0 1 13 = some (w1, GEARMAN_SUCCESS) ∧
      w1.registered 5 = [⟨5, set_events 13, .con_ready, 1⟩] ∧
      ∃ w2, _con_ready w1 18 1 ⟨[], none, GEARMAN_SUCCESS⟩ none = some w2 ∧
        w2.cons.lookup 1 = some ⟨1, revents 18⟩) ∧
    ((set_events 13 &&& EV_READ ≠ 0 ↔ 13 &&& POLLIN ≠ 0) ∧
      (set_events 13 &&& EV_WRITE ≠ 0 ↔ 13 &&& POLLOUT ≠ 0) ∧
      set_events 13 &&& (EV_READ ||| EV_WRITE) = set_events 13) ∧
    ((revents 18 &&& POLLIN ≠ 0 ↔ 18 &&& EV_READ ≠ 0) ∧
      (revents 18 &&& POLLOUT ≠ 0 ↔ 18 &&& EV_WRITE ≠ 0) ∧
      revents 18 &&& (POLLIN ||| POLLOUT) = revents 18) ∧
    revents (set_events 13) = 13 &&& (POLLIN ||| POLLOUT) ∧
    set_events (revents 18) = 18 &&& (EV_READ ||| EV_WRITE)) :=
  ⟨by decide, flag_translation w0 1 13 18 1 0
     { fd := some 5, sa := some (16777343, 40000), server_con := some 1, con := some 1,
       event := some ⟨5, 2, .con_ready, 1⟩ } 5 rfl rfl rfl (by decide)⟩

/-! ## Teardown after a terminal drive outcome -/

theorem con_ready_teardown_eval (w : World) (events arg : Nat) (d : Drive)
    (cb : Option gearman_return_t) (w1 : World) (sc p : Nat) (rec : gearmand_con_st)
    (sa : Nat × Nat) (ev : event)
    (hdrive : _con_ready_drive w events arg d = some w1)
    (hret : d.ret ≠ GEARMAN_SUCCESS ∧ d.ret ≠ GEARMAN_IO_WAIT)
    (hsc : d.server_con = some sc)
    (hdata : gearman_server_con_data w1 sc = some p)
    (hrec : w1.heap.lookup p = some rec) (hsa : rec.sa = some sa)
    (hsafe : cb = none ∨ (rec.event = some ev ∧ ev.ev_fd ∈ w1.del_fails)) :
    ∃ w2, _con_ready w events arg d cb = some w2 ∧
      w2.trace = w1.trace ++ (Call.gearman_server_con_free sc ::
        (if cb = none then [] else [Call.event_del ev.ev_fd false]) ++ [Call.free p]) ∧
      w2.reactor = w1.reactor ∧
      w2.heap = w1.heap.filter (fun x => x.1 ≠ p) ∧
      w2.cons = w1.cons.filter (fun x => x.1 ≠ sc) ∧
      w2.exited = w1.exited := by
  have hdata2 : (w1.cons.lookup sc).map (fun c => c.data) = some p := hdata
  unfold _con_ready
  cases cb with
  | none =>
    simp [hdrive, hret, hsc, gearman_server_con_data, gearman_server_con_free, World.printf,
      World.call, World.free, hdata2, hrec, hsa]
  | some r =>
    rcases hsafe with h | ⟨hev, hf⟩
    · exact absurd h (by simp)
    · by_cases hr : r = GEARMAN_SUCCESS <;>
        simp [hdrive, hret, hsc, gearman_server_con_data, gearman_server_con_free,
          World.printf, World.call, World.free, hdata2, hrec, hsa, _con_close,
          gearman_con_data, hev, event_del, hf, hr]

theorem con_ready_teardown_double_free (w : World) (events arg : Nat) (d : Drive)
    (r : gearman_return_t) (w1 : World) (sc p : Nat) (rec : gearmand_con_st)
    (sa : Nat × Nat) (ev : event)
    (hdrive : _con_ready_drive w events arg d = some w1)
    (hret : d.ret ≠ GEARMAN_SUCCESS ∧ d.ret ≠ GEARMAN_IO_WAIT)
    (hsc : d.server_con = some sc)
    (hdata : gearman_server_con_data w1 sc = some p)
    (hrec : w1.heap.lookup p = some rec)
    (hev : rec.event = some ev) (hok : ev.ev_fd ∉ w1.del_fails) :
    (∃ wm, gearman_server_con_free
        ((w1.printf .server_run_error).printf (.disconnect sa)) sc (some r) = some wm ∧
      wm.trace = w1.trace ++ [Call.gearman_server_con_free sc, Call.event_del ev.ev_fd true,
        Call.gearman_con_free sc, Call.free p] ∧
      wm.heap.lookup p = none ∧ wm.free p = none) ∧
    _con_ready w events arg d (some r) = none := by
  have hdata2 : (w1.cons.lookup sc).map (fun c => c.data) = some p := hdata
  have hl : List.lookup p (w1.heap.filter (fun x => !decide (x.1 = p))) = none := by
    have h := lookup_filter_ne w1.heap p p
    simpa using h
  constructor
  · by_cases hr : r = GEARMAN_SUCCESS <;>
      simp [gearman_server_con_free, World.printf, World.call, World.free, hdata2, hrec,
        _con_close, gearman_con_data, hev, event_del, hok, hr, gearman_con_free, hl] <;>
      exact fun a _ _ h1 h2 => h1 h2.symm
  · unfold _con_ready
    by_cases hr : r = GEARMAN_SUCCESS <;>
      simp [hdrive, hret, hsc, gearman_server_con_data, gearman_server_con_free,
        World.printf, World.call, World.free, hdata2, hrec, _con_close,
        gearman_con_data, hev, event_del, hok, hr, gearman_con_free, hl]

/-- C1 (what the code does instead): after a terminal drive outcome that
    comes with a handle, the teardown of `_con_ready` calls
    `gearman_server_con_free` and then `free` on the record, and never
    `event_del` itself.  When the engine's free does not invoke `_con_close`
    the descriptor is not unregistered at all (its registration stays, the
    record is freed once); when it does and `event_del` fails, the
    registration stays as well; when it does and `event_del` succeeds,
    `_con_close` unregisters and frees the record and `_con_ready` then calls
    `free` on the same, no longer allocated address, which is undefined
    behaviour.  In no case does `_con_ready` return with the descriptor
    unregistered exactly once and the record freed exactly once. -/
theorem con_ready_teardown_calls (w : World) (events arg : Nat) (d : Drive)
    (cb : Option gearman_return_t) (w1 : World) (sc p : Nat) (rec : gearmand_con_st)
    (sa : Nat × Nat) (ev : event)
    (hdrive : _con_ready_drive w events arg d = some w1)
    (hret : d.ret ≠ GEARMAN_SUCCESS ∧ d.ret ≠ GEARMAN_IO_WAIT)
    (hsc : d.server_con = some sc)
    (hdata : gearman_server_con_data w1 sc = some p)
    (hrec : w1.heap.lookup p = some rec) (hsa : rec.sa = some sa)
    (hev : rec.event = some ev) :
    (cb = none →
      ∃ w2, _con_ready w events arg d cb = some w2 ∧
        w2.trace = w1.trace ++ [Call.gearman_server_con_free sc, Call.free p] ∧
        w2.trace.count (.event_del ev.ev_fd true) = w1.trace.count (.event_del ev.ev_fd true) ∧
        w2.trace.count (.free p) = w1.trace.count (.free p) + 1 ∧
        w2.reactor = w1.reactor ∧ w2.heap.lookup p = none) ∧
    (cb ≠ none → ev.ev_fd ∈ w1.del_fails →
      ∃ w2, _con_ready w events arg d cb = some w2 ∧
        w2.trace = w1.trace ++ [Call.gearman_server_con_free sc,
          Call.event_del ev.ev_fd false, Call.free p] ∧
        w2.trace.count (.event_del ev.ev_fd true) = w1.trace.count (.event_del ev.ev_fd true) ∧
        w2.trace.count (.free p) = w1.trace.count (.free p) + 1 ∧
        w2.reactor = w1.reactor ∧ w2.heap.lookup p = none) ∧
    (cb ≠ none → ev.ev_fd ∉ w1.del_fails →
      (∃ wm, gearman_server_con_free
          ((w1.printf .server_run_error).printf (.disconnect sa)) sc cb = some wm ∧
        wm.trace = w1.trace ++ [Call.gearman_server_con_free sc,
          Call.event_del ev.ev_fd true, Call.gearman_con_free sc, Call.free p] ∧
        wm.heap.lookup p = none ∧ wm.free p = none) ∧
      _con_ready w events arg d cb = none) ∧
    ¬ (∃ w2, _con_ready w events arg d cb = some w2 ∧
        w2.trace.count (.event_del ev.ev_fd true) =
          w1.trace.count (.event_del ev.ev_fd true) + 1 ∧
        w2.trace.count (.free p) = w1.trace.count (.free p) + 1) := by
  have hl : ∀ w2 : World, w2.heap = w1.heap.filter (fun x => x.1 ≠ p) →
      w2.heap.lookup p = none := by
    intro w2 h
    rw [h, lookup_filter_ne]; simp
  have hnone : cb = none →
      ∃ w2, _con_ready w events arg d cb = some w2 ∧
        w2.trace = w1.trace ++ [Call.gearman_server_con_free sc, Call.free p] ∧
        w2.trace.count (.event_del ev.ev_fd true) = w1.trace.count (.event_del ev.ev_fd true) ∧
        w2.trace.count (.free p) = w1.trace.count (.free p) + 1 ∧
        w2.reactor = w1.reactor ∧ w2.heap.lookup p = none := by
    intro hcb
    obtain ⟨w2, h2, htr, hreac, hheap, -, -⟩ :=
      con_ready_teardown_eval w events arg d cb w1 sc p rec sa ev hdrive hret hsc hdata hrec
        hsa (Or.inl hcb)
    rw [if_pos hcb] at htr
    exact ⟨w2, h2, by simpa using htr, by simp [htr, List.count_append, List.count_cons],
      by simp [htr, List.count_append, List.count_cons], hreac, hl w2 hheap⟩
  have hfail : cb ≠ none → ev.ev_fd ∈ w1.del_fails →
      ∃ w2, _con_ready w events arg d cb = some w2 ∧
        w2.trace = w1.trace ++ [Call.gearman_server_con_free sc,
          Call.event_del ev.ev_fd false, Call.free p] ∧
        w2.trace.count (.event_del ev.ev_fd true) = w1.trace.count (.event_del ev.ev_fd true) ∧
        w2.trace.count (.free p) = w1.trace.count (.free p) + 1 ∧
        w2.reactor = w1.reactor ∧ w2.heap.lookup p = none := by
    intro hcb hf
    obtain ⟨w2, h2, htr, hreac, hheap, -, -⟩ :=
      con_ready_teardown_eval w events arg d cb w1 sc p rec sa ev hdrive hret hsc hdata hrec
        hsa (Or.inr ⟨hev, hf⟩)
    rw [if_neg hcb] at htr
    exact ⟨w2, h2, by simpa using htr, by simp [htr, List.count_append, List.count_cons],
      by simp [htr, List.count_append, List.count_cons], hreac, hl w2 hheap⟩
  have hdouble : cb ≠ none → ev.ev_fd ∉ w1.del_fails →
      (∃ wm, gearman_server_con_free
          ((w1.printf .server_run_error).printf (.disconnect sa)) sc cb = some wm ∧
        wm.trace = w1.trace ++ [Call.gearman_server_con_free sc,
          Call.event_del ev.ev_fd true, Call.gearman_con_free sc, Call.free p] ∧
        wm.heap.lookup p = none ∧ wm.free p = none) ∧
      _con_ready w events arg d cb = none := by
    intro hcb hok
    cases cb with
    | none => exact absurd rfl hcb
    | some r =>
      exact con_ready_teardown_double_free w events arg d r w1 sc p rec sa ev hdrive hret hsc
        hdata hrec hev hok
  refine ⟨hnone, hfail, hdouble, ?_⟩
  rintro ⟨w2, h2, hd, -⟩
  by_cases hcb : cb = none
  · obtain ⟨w3, h3, -, hd3, -, -, -⟩ := hnone hcb
    rw [h2] at h3
    cases h3
    omega
  · by_cases hf : ev.ev_fd ∈ w1.del_fails
    · obtain ⟨w3, h3, -, hd3, -, -, -⟩ := hfail hcb hf
      rw [h2] at h3
      cases h3
      omega
    · rw [(hdouble hcb hf).2] at h2
      cases h2

/-- Witness for C1 on the world `w0`: descriptor 5 is readable and the drive
    call returns `GEARMAN_ERRNO` with handle 1.  When the engine's free does
    not invoke `_con_close`, descriptor 5 stays registered and record 1 is
    freed; when it does, record 1 is freed inside `_con_close` and the `free`
    of `_con_ready` meets an address that is no longer allocated. -/
theorem con_ready_teardown_calls_witness :
    (_con_ready_drive w0 2 1 ⟨[], some 1, GEARMAN_ERRNO⟩ =
      some { w0 with cons := [(1, ⟨1, 1⟩)],
                     trace := [.gearman_con_set_revents 1 1,
                               .gearman_server_run (some 1) GEARMAN_ERRNO] }) ∧
    (∃ w2, _con_ready w0 2 1 ⟨[], some 1, GEARMAN_ERRNO⟩ none = some w2 ∧
      w2.trace = [.gearman_con_set_revents 1 1, .gearman_server_run (some 1) GEARMAN_ERRNO] ++
        [Call.gearman_server_con_free 1, Call.free 1] ∧
      w2.reactor = w0.reactor ∧ w2.heap.lookup 1 = none) ∧
    _con_ready w0 2 1 ⟨[], some 1, GEARMAN_ERRNO⟩ (some GEARMAN_ERRNO) = none :=
  ⟨rfl, by
    obtain ⟨w2, h, htr, -, -, hreac, hheap⟩ :=
      (con_ready_teardown_calls w0 2 1 ⟨[], some 1, GEARMAN_ERRNO⟩ none
        { w0 with cons := [(1, ⟨1, 1⟩)],
                  trace := [.gearman_con_set_revents 1 1,
                            .gearman_server_run (some 1) GEARMAN_ERRNO] }
        1 1
        { fd := some 5, sa := some (16777343, 40000), server_con := some 1, con := some 1,
          event := some ⟨5, 2, .con_ready, 1⟩ }
        (16777343, 40000) ⟨5, 2, .con_ready, 1⟩ rfl (by decide) rfl rfl rfl rfl rfl).1 rfl
    exact ⟨w2, h, htr, hreac, hheap⟩,
   rfl⟩

/-- C6 as stated fails: on the world `w0` the drive call returns
    `GEARMAN_ERRNO` without a handle, and `_con_ready` closes no connection
    (record, handle and registrations are as the drive call left them) and
    terminates the process with status 1. -/
theorem con_ready_error_null_handle_exits :
    ∃ w2, _con_ready w0 2 1 ⟨[], none, GEARMAN_ERRNO⟩ none = some w2 ∧
      w2.exited = some 1 ∧ w2.heap = w0.heap ∧ w2.reactor = w0.reactor ∧
      w2.cons.map (fun x => x.1) = w0.cons.map (fun x => x.1) ∧
      w2.trace = [.gearman_con_set_revents 1 1, .gearman_server_run none GEARMAN_ERRNO,
        .exit 1] :=
  ⟨_, rfl, rfl, rfl, rfl, rfl, rfl⟩

/-- C6 (amended): after a drive outcome other than `GEARMAN_SUCCESS` and
    `GEARMAN_IO_WAIT`, `_con_ready` terminates the process with status 1 when
    the drive call returned no handle.  When it returned a handle and the
    engine's `gearman_server_con_free` does not free the record through
    `_con_close` (it makes no close callback, or `event_del` fails inside it),
    `_con_ready` tears down exactly the connection whose record is attached to
    that handle (whichever record the event fired for): it releases that one
    handle with one `gearman_server_con_free` call and frees that record once,
    every other record and handle and the registration of every other
    descriptor is as the drive call left it, and the process goes on. -/
theorem con_ready_error_closes_returned_handle (w : World) (events arg : Nat) (d : Drive)
    (cb : Option gearman_return_t) (w1 : World)
    (hdrive : _con_ready_drive w events arg d = some w1)
    (hret : d.ret ≠ GEARMAN_SUCCESS ∧ d.ret ≠ GEARMAN_IO_WAIT) :
    (d.server_con = none →
      ∃ w2, _con_ready w events arg d cb = some w2 ∧ w2.exited = some 1 ∧
        w2.heap = w1.heap ∧ w2.reactor = w1.reactor ∧ w2.cons = w1.cons) ∧
    (∀ (sc p : Nat) (rec : gearmand_con_st) (sa : Nat × Nat) (ev : event),
      d.server_con = some sc → gearman_server_con_data w1 sc = some p →
      w1.heap.lookup p = some rec → rec.sa = some sa →
      (cb = none ∨ (rec.event = some ev ∧ ev.ev_fd ∈ w1.del_fails)) →
      ∃ w2, _con_ready w events arg d cb = some w2 ∧ w2.exited = w1.exited ∧
        w2.heap.lookup p = none ∧ w2.cons.lookup sc = none ∧
        w2.trace.count (.gearman_server_con_free sc) =
          w1.trace.count (.gearman_server_con_free sc) + 1 ∧
        w2.trace.count (.free p) = w1.trace.count (.free p) + 1 ∧
        (∀ q, q ≠ p → w2.heap.lookup q = w1.heap.lookup q) ∧
        (∀ h, h ≠ sc → w2.cons.lookup h = w1.cons.lookup h) ∧
        (∀ q, q ≠ p → w2.trace.count (.free q) = w1.trace.count (.free q)) ∧
        (∀ h, h ≠ sc → w2.trace.count (.gearman_server_con_free h) =
          w1.trace.count (.gearman_server_con_free h)) ∧
        (∀ fd, rec.fd ≠ some fd → w2.registered fd = w1.registered fd)) := by
  constructor
  · intro hsc
    unfold _con_ready
    simp [hdrive, hret, hsc, World.exit, World.printf, World.call]
  · intro sc p rec sa ev hsc hdata hrec hsa hsafe
    obtain ⟨w2, h2, htr, hreac, hheap, hcons, hex⟩ :=
      con_ready_teardown_eval w events arg d cb w1 sc p rec sa ev hdrive hret hsc hdata hrec
        hsa hsafe
    refine ⟨w2, h2, hex, ?_, ?_, ?_, ?_, ?_, ?_, ?_, ?_, ?_⟩
    · rw [hheap, lookup_filter_ne]; simp
    · rw [hcons, lookup_filter_ne]; simp
    · by_cases hcb : cb = none <;>
        simp [htr, hcb, List.count_append, List.count_cons]
    · by_cases hcb : cb = none <;>
        simp [htr, hcb, List.count_append, List.count_cons]
    · intro q hq
      rw [hheap, lookup_filter_ne]; simp [hq]
    · intro h hh
      rw [hcons, lookup_filter_ne]; simp [hh]
    · intro q hq
      have hq2 : ¬ p = q := fun h => hq h.symm
      by_cases hcb : cb = none <;>
        simp [htr, hcb, List.count_append, List.count_cons, hq2]
    · intro h hh
      have hh2 : ¬ sc = h := fun e => hh e.symm
      by_cases hcb : cb = none <;>
        simp [htr, hcb, List.count_append, List.count_cons, hh2]
    · intro fd _
      simp [World.registered, hreac]

/-- Witness for C6 (amended) on the world `w0`: the drive call returns
    `GEARMAN_ERRNO` with handle 1 and the engine's free makes no callback. -/
theorem con_ready_error_closes_returned_handle_witness :
    (_con_ready_drive w0 2 1 ⟨[], some 1, GEARMAN_ERRNO⟩ =
      some { w0 with cons := [(1, ⟨1, 1⟩)],
                     trace := [.gearman_con_set_revents 1 1,
                               .gearman_server_run (some 1) GEARMAN_ERRNO] }) ∧
    ∃ w2, _con_ready w0 2 1 ⟨[], some 1, GEARMAN_ERRNO⟩ none = some w2 ∧
      w2.exited = none ∧ w2.heap.lookup 1 = none ∧ w2.cons.lookup 1 = none ∧
      w2.trace.count (.free 1) = 1 ∧ w2.registered 3 = w0.registered 3 :=
  ⟨rfl, by
    obtain ⟨w2, h, hex, hheap, hcons, -, hfree, -, -, -, -, hreg⟩ :=
      (con_ready_error_closes_returned_handle w0 2 1 ⟨[], some 1, GEARMAN_ERRNO⟩ none
        { w0 with cons := [(1, ⟨1, 1⟩)],
                  trace := [.gearman_con_set_revents 1 1,
                            .gearman_server_run (some 1) GEARMAN_ERRNO] }
        rfl (by decide)).2 1 1
        { fd := some 5, sa := some (16777343, 40000), server_con := some 1, con := some 1,
          event := some ⟨5, 2, .con_ready, 1⟩ }
        (16777343, 40000) ⟨5, 2, .con_ready, 1⟩ rfl rfl rfl rfl (Or.inl rfl)
    exact ⟨w2, h, hex, hheap, hcons, hfree, hreg 3 (by decide)⟩⟩

/-! ## The server instance -/

/-- C2 as stated fails: on the world `w0`, `gearmand_destroy` calls
    `gearman_server_free` first and `event_base_free` second, so
    `event_base_free` does not come before `gearman_server_free`, and at the
    moment the engine has been released the event base is still live. -/
theorem destroy_engine_before_reactor :
    (gearmand_destroy w0).trace = [.gearman_server_free, .event_base_free, .free_gearmand] ∧
    ¬ ((gearmand_destroy w0).trace.indexOf Call.event_base_free <
        (gearmand_destroy w0).trace.indexOf Call.gearman_server_free) ∧
    (gearman_server_free w0).gearmand =
      some { base := true, server := false, listen_event := some ⟨3, 18, .listen_accept, 0⟩ } := by
  refine ⟨rfl, ?_, rfl⟩
  decide

/-- C2 (amended): `gearmand_destroy` makes three calls, in this order:
    `gearman_server_free` (the session engine), `event_base_free` (the
    reactor), `free` of the instance.  When the engine has been released the
    event base and its registrations are still untouched; at the end the
    instance, the registrations and the handles are gone. -/
theorem destroy_order (w : World) :
    (gearmand_destroy w).trace =
      w.trace ++ [.gearman_server_free, .event_base_free, .free_gearmand] ∧
    (gearman_server_free w).gearmand =
      w.gearmand.map (fun (g : gearmand_st) => { g with server := false }) ∧
    (gearman_server_free w).reactor = w.reactor ∧
    (gearmand_destroy w).gearmand = none ∧
    (gearmand_destroy w).reactor = [] ∧
    (gearmand_destroy w).cons = [] ∧
    (gearmand_destroy w).exited = w.exited := by
  simp [gearmand_destroy, gearman_server_free, event_base_free, World.call]

/-! ## Initialisation -/

theorem listen_init_frame (w : World) (port : Nat) (backlog : Int) (sys : Sys) :
    (_listen_init w port backlog sys).1.exited = w.exited ∧
    (_listen_init w port backlog sys).1.add_fails = w.add_fails ∧
    (_listen_init w port backlog sys).1.gearmand.isSome = w.gearmand.isSome := by
  unfold _listen_init
  cases sys.signal_ok <;> cases sys.setsockopt_ok <;> cases sys.bind_ok <;>
    cases sys.listen_ok <;> by_cases h1 : sys.socket = -1 <;>
    by_cases h2 : sys.socket ∈ w.add_fails <;>
    simp [h1, h2, World.call, World.printf, event_add]

theorem listen_init_status (w : World) (port : Nat) (backlog : Int) (sys : Sys)
    (fails : List Int) (hf : w.add_fails = fails) :
    (_listen_init w port backlog sys).2 =
      if sys.signal_ok = true ∧ sys.socket ≠ -1 ∧ sys.setsockopt_ok = true ∧
          sys.bind_ok = true ∧ sys.listen_ok = true ∧ sys.socket ∉ fails
      then GEARMAN_SUCCESS else GEARMAN_ERRNO := by
  subst hf
  unfold _listen_init
  cases sys.signal_ok <;> cases sys.setsockopt_ok <;> cases sys.bind_ok <;>
    cases sys.listen_ok <;> by_cases h1 : sys.socket = -1 <;>
    by_cases h2 : sys.socket ∈ w.add_fails <;>
    simp [h1, h2, World.call, World.printf, event_add]

theorem listen_init_stops (w : World) (port : Nat) (backlog : Int) (sys : Sys)
    (hfail : ¬ (sys.signal_ok = true ∧ sys.socket ≠ -1 ∧ sys.setsockopt_ok = true ∧
      sys.bind_ok = true ∧ sys.listen_ok = true ∧ sys.socket ∉ w.add_fails)) :
    ∃ pre c, (_listen_init w port backlog sys).1.trace = w.trace ++ pre ++ [c] ∧
      c.failed = true ∧ ∀ x ∈ pre, x.failed = false := by
  unfold _listen_init
  by_cases h1 : sys.signal_ok = true
  swap
  · exact ⟨[], .signal sys.signal_ok, by simp [h1, World.call, World.printf],
      by simpa [Call.failed] using h1, by simp⟩
  by_cases h2 : sys.socket = -1
  · exact ⟨[.signal sys.signal_ok], .socket sys.socket,
      by simp [h1, h2, World.call, World.printf], by simp [Call.failed, h2],
      by simp [Call.failed, h1]⟩
  by_cases h3 : sys.setsockopt_ok = true
  swap
  · exact ⟨[.signal sys.signal_ok, .socket sys.socket],
      .setsockopt sys.socket sys.setsockopt_ok,
      by simp [h1, h2, h3, World.call, World.printf], by simpa [Call.failed] using h3,
      by simp [Call.failed, h1, h2]⟩
  by_cases h4 : sys.bind_ok = true
  swap
  · exact ⟨[.signal sys.signal_ok, .socket sys.socket,
        .setsockopt sys.socket sys.setsockopt_ok],
      .bind sys.socket port sys.bind_ok,
      by simp [h1, h2, h3, h4, World.call, World.printf], by simpa [Call.failed] using h4,
      by simp [Call.failed, h1, h2, h3]⟩
  by_cases h5 : sys.listen_ok = true
  swap
  · exact ⟨[.signal sys.signal_ok, .socket sys.socket,
        .setsockopt sys.socket sys.setsockopt_ok, .bind sys.socket port sys.bind_ok],
      .listen sys.socket backlog sys.listen_ok,
      by simp [h1, h2, h3, h4, h5, World.call, World.printf],
      by simpa [Call.failed] using h5, by simp [Call.failed, h1, h2, h3, h4]⟩
  have h6 : sys.socket ∈ w.add_fails := by
    by_contra h6
    exact hfail ⟨h1, h2, h3, h4, h5, h6⟩
  exact ⟨[.signal sys.signal_ok, .socket sys.socket,
      .setsockopt sys.socket sys.setsockopt_ok, .bind sys.socket port sys.bind_ok,
      .listen sys.socket backlog sys.listen_ok,
      .event_set sys.socket (EV_READ ||| EV_PERSIST) .listen_accept 0, .event_base_set],
    .event_add sys.socket false,
    by simp [h1, h2, h3, h4, h5, h6, World.call, World.printf, event_add],
    by simp [Call.failed], by simp [Call.failed, h1, h2, h3, h4, h5]⟩

theorem gearmand_init_returns (w : World) (port : Nat) (backlog : Int) (sys : Sys) :
    ((gearmand_init w port backlog sys).2.isSome = true ↔
      (sys.malloc_ok = true ∧ sys.event_init_ok = true ∧ sys.server_create_ok = true ∧
        sys.signal_ok = true ∧ sys.socket ≠ -1 ∧ sys.setsockopt_ok = true ∧
        sys.bind_ok = true ∧ sys.listen_ok = true ∧ sys.socket ∉ w.add_fails)) ∧
    (gearmand_init w port backlog sys).1.exited = w.exited := by
  unfold gearmand_init
  cases h1 : sys.malloc_ok
  · simp [World.call]
  cases h2 : sys.event_init_ok
  · simp [World.call, World.printf]
  cases h3 : sys.server_create_ok
  · simp [World.call, World.printf]
  simp only [Bool.not_true, Bool.false_eq_true, if_false, true_and]
  rw [listen_init_status _ port backlog sys w.add_fails (by simp [World.call])]
  by_cases hall : sys.signal_ok = true ∧ sys.socket ≠ -1 ∧ sys.setsockopt_ok = true ∧
      sys.bind_ok = true ∧ sys.listen_ok = true ∧ sys.socket ∉ w.add_fails
  · rw [if_pos hall]
    simp only [ne_eq, not_true_eq_false, if_false]
    refine ⟨?_, ?_⟩
    · rw [(listen_init_frame _ port backlog sys).2.2]
      simp [World.call, hall]
    · rw [(listen_init_frame _ port backlog sys).1]
      simp [World.call]
  · rw [if_neg hall]
    have hne : GEARMAN_ERRNO ≠ GEARMAN_SUCCESS := by decide
    simp only [ne_eq, hne, not_false_eq_true, if_true]
    refine ⟨?_, ?_⟩
    · simp only [Option.isSome_none, Bool.false_eq_true, false_iff]
      exact hall
    · have hd : ∀ x : World, (gearmand_destroy x).exited = x.exited := by
        intro x
        simp [gearmand_destroy, gearman_server_free, event_base_free, World.call]
      rw [hd, (listen_init_frame _ port backlog sys).1]
      simp [World.call]

/-- C8: when a setup step of the listener fails (`signal`, `socket`,
    `setsockopt`, `bind`, `listen` or the `event_add` of the listening event),
    `_listen_init` returns `GEARMAN_ERRNO` and the failed call is the last call
    it makes (every call before it succeeded, none follows), and
    `gearmand_init` returns NULL; `gearmand_init` returns an instance exactly
    when `malloc`, `event_init`, `gearman_server_create` and all six listener
    steps succeeded; on no path does it terminate the process. -/
theorem init_failure_policy (w : World) (port : Nat) (backlog : Int) (sys : Sys) :
    ((sys.signal_ok = false ∨ sys.socket = -1 ∨ sys.setsockopt_ok = false ∨
        sys.bind_ok = false ∨ sys.listen_ok = false ∨ sys.socket ∈ w.add_fails) →
      (_listen_init w port backlog sys).2 = GEARMAN_ERRNO ∧
      (∃ pre c, (_listen_init w port backlog sys).1.trace = w.trace ++ pre ++ [c] ∧
        c.failed = true ∧ ∀ x ∈ pre, x.failed = false) ∧
      (gearmand_init w port backlog sys).2 = none) ∧
    ((gearmand_init w port backlog sys).2.isSome = true ↔
      (sys.malloc_ok = true ∧ sys.event_init_ok = true ∧ sys.server_create_ok = true ∧
        sys.signal_ok = true ∧ sys.socket ≠ -1 ∧ sys.setsockopt_ok = true ∧
        sys.bind_ok = true ∧ sys.listen_ok = true ∧ sys.socket ∉ w.add_fails)) ∧
    (gearmand_init w port backlog sys).1.exited = w.exited ∧
    (_listen_init w port backlog sys).1.exited = w.exited := by
  have hret := gearmand_init_returns w port backlog sys
  refine ⟨fun hfail => ?_, hret.1, hret.2, (listen_init_frame w port backlog sys).1⟩
  have hnot : ¬ (sys.signal_ok = true ∧ sys.socket ≠ -1 ∧ sys.setsockopt_ok = true ∧
      sys.bind_ok = true ∧ sys.listen_ok = true ∧ sys.socket ∉ w.add_fails) := by
    rintro ⟨h1, h2, h3, h4, h5, h6⟩
    rcases hfail with h | h | h | h | h | h
    · simp [h1] at h
    · exact h2 h
    · simp [h3] at h
    · simp [h4] at h
    · simp [h5] at h
    · exact h6 h
  refine ⟨?_, listen_init_stops w port backlog sys hnot, ?_⟩
  · rw [listen_init_status w port backlog sys w.add_fails rfl, if_neg hnot]
  · have hn : ¬ ((gearmand_init w port backlog sys).2.isSome = true) := by
      rw [hret.1]
      exact fun h => hnot h.2.2.2
    cases hg : (gearmand_init w port backlog sys).2 with
    | none => rfl
    | some g => simp [hg] at hn

/-- Witness for C8: all calls succeed up to `bind`, which fails. -/
theorem init_failure_policy_witness :
    (_listen_init { w0 with gearmand := none, heap := [], reactor := [], cons := [] } 4730 10
        ⟨true, true, true, true, 3, true, false, true⟩).2 = GEARMAN_ERRNO ∧
    (∃ pre c, (_listen_init { w0 with gearmand := none, heap := [], reactor := [], cons := [] }
        4730 10 ⟨true, true, true, true, 3, true, false, true⟩).1.trace =
          ({ w0 with gearmand := none, heap := [], reactor := [], cons := [] } : World).trace ++
            pre ++ [c] ∧
        c.failed = true ∧ ∀ x ∈ pre, x.failed = false) ∧
    (gearmand_init { w0 with gearmand := none, heap := [], reactor := [], cons := [] } 4730 10
        ⟨true, true, true, true, 3, true, false, true⟩).2 = none :=
  (init_failure_policy { w0 with gearmand := none, heap := [], reactor := [], cons := [] }
    4730 10 ⟨true, true, true, true, 3, true, false, true⟩).1
    (Or.inr (Or.inr (Or.inr (Or.inl rfl))))

/-! ## Accepting a connection -/

/-- C3 as stated fails: on the world `w0`, `accept` returns descriptor 6 and
    `gearman_server_add_con` returns handle 2 without calling back; then
    `_listen_accept` has accepted one connection and the session sits in the
    new record, but descriptor 6 has no registration: the reactor is as it
    was, since `_listen_accept` makes no reactor call of its own. -/
theorem listen_accept_registers_nothing :
    ∃ w2, _listen_accept w0 3 ⟨some 2, 6, (16777343, 40001), some 2, []⟩ = some w2 ∧
      w2.exited = none ∧
      w2.trace = [.malloc (some 2), .accept 3 6, .gearman_server_add_con 6 2 (some 2)] ∧
      w2.heap.lookup 2 = some { fd := some 6, sa := some (16777343, 40001),
                                server_con := some 2, con := none, event := none } ∧
      w2.registered 6 = [] ∧ w2.reactor = w0.reactor :=
  ⟨_, rfl, rfl, rfl, rfl, rfl, rfl⟩

/-- C3 (amended): when `accept` and `gearman_server_add_con` both succeed,
    `_listen_accept` makes one `accept` call, the engine builds the session in
    the new record and attaches the record to it, and `_listen_accept` itself
    makes no reactor call.  If the engine makes no callback inside
    `gearman_server_add_con`, the registration table is unchanged; if it
    declares `POLLIN` through `_con_watch` there and `event_add` succeeds, the
    record holds the handle in `con` and the new descriptor has exactly one
    registration, for `EV_READ` only. -/
theorem listen_accept_success (w : World) (lfd : Int) (a : Accept) (p h : Nat)
    (hm : a.malloc = some p) (hfd : a.fd ≠ -1) (hadd : a.add_con = some h) :
    (a.upcalls = [] →
      ∃ w2, _listen_accept w lfd a = some w2 ∧ w2.exited = w.exited ∧
        w2.trace = w.trace ++ [.malloc (some p), .accept lfd a.fd,
          .gearman_server_add_con a.fd p (some h)] ∧
        w2.heap.lookup p = some { fd := some a.fd, sa := some a.sa, server_con := some h,
                                  con := none, event := none } ∧
        w2.cons.lookup h = some ⟨p, 0⟩ ∧
        w2.reactor = w.reactor) ∧
    (a.upcalls = [.watch h POLLIN] → a.fd ∉ w.add_fails →
      ∃ w2, _listen_accept w lfd a = some w2 ∧ w2.exited = w.exited ∧
        w2.trace = w.trace ++ [.malloc (some p), .accept lfd a.fd,
          .gearman_server_add_con a.fd p (some h),
          .event_set a.fd EV_READ .con_ready p, .event_base_set, .event_add a.fd true] ∧
        w2.heap.lookup p = some { fd := some a.fd, sa := some a.sa, server_con := some h,
                                  con := some h,
                                  event := some ⟨a.fd, EV_READ, .con_ready, p⟩ } ∧
        w2.cons.lookup h = some ⟨p, 0⟩ ∧
        w2.registered a.fd = [⟨a.fd, EV_READ, .con_ready, p⟩]) := by
  have hse : set_events POLLIN = EV_READ := by decide
  constructor
  · intro hup
    unfold _listen_accept gearman_server_add_con
    simp [hm, hfd, hadd, hup, World.call, World.store, World.printf, run_upcalls,
      gearmand_con_st.blank]
  · intro hup hok
    unfold _listen_accept gearman_server_add_con
    simp [hm, hfd, hadd, hup, hok, World.call, World.store, World.printf, run_upcalls,
      gearmand_con_st.blank, _con_watch, gearman_con_data, event_add, hse, World.registered,
      List.filter_cons, List.filter_filter]

/-- Witness for C3 (amended) on the world `w0`: `accept` returns descriptor 6
    and the engine declares `POLLIN` for the new handle 2 while adding it. -/
theorem listen_accept_success_witness :
    ((6 : Int) ≠ -1 ∧ (6 : Int) ∉ w0.add_fails) ∧
    ∃ w2, _listen_accept w0 3 ⟨some 2, 6, (16777343, 40001), some 2, [.watch 2 POLLIN]⟩ =
        some w2 ∧ w2.exited = w0.exited ∧
      w2.trace = w0.trace ++ [.malloc (some 2), .accept 3 6,
        .gearman_server_add_con 6 2 (some 2),
        .event_set 6 EV_READ .con_ready 2, .event_base_set, .event_add 6 true] ∧
      w2.heap.lookup 2 = some { fd := some 6, sa := some (16777343, 40001),
                                server_con := some 2, con := some 2,
                                event := some ⟨6, EV_READ, .con_ready, 2⟩ } ∧
      w2.cons.lookup 2 = some ⟨2, 0⟩ ∧
      w2.registered 6 = [⟨6, EV_READ, .con_ready, 2⟩] :=
  ⟨⟨by decide, by decide⟩,
   (listen_accept_success w0 3 ⟨some 2, 6, (16777343, 40001), some 2, [.watch 2 POLLIN]⟩ 2 2
     rfl (by decide) rfl).2 rfl (by decide)⟩

end Gearmand
